import Mathlib

/-!
Verification development for `verify_password_toggle.py`, a Playwright
script that checks a password-visibility toggle on a registration page.

The script is embedded shallowly as a trace semantics: each browser /
filesystem interaction the script performs is an `Op`; an environment
oracle `env : Op → Option Err` decides whether a given interaction
succeeds or raises an exception `Err` (Playwright locators are lazy, so
`get_by_label(...)` followed by an action is modelled as the single
action that forces resolution; `expect(...)` assertions, which poll
internally, are modelled as one step with a success/failure outcome).
Running the procedure yields the list of interactions attempted, in
order, together with the exception it raised, if any.  The `__main__`
driver (try/except/finally) is embedded on top, yielding the full event
trace (interactions, printed lines, `browser.close()`) and the exception
that escapes the driver unhandled, if any.
-/

set_option autoImplicit false

namespace VerifyPasswordToggle

/-- A Python exception value, identified by its message (the script only
ever formats an exception as `f"{e}"`). All exceptions raised by the
Playwright and `os` calls used here derive from `Exception`, so the
driver's `except Exception` clause catches any of them. -/
structure Err where
  msg : String
deriving DecidableEq, Repr

/-- One browser or filesystem interaction performed by the script.
Label-based lookups carry the query string and the `exact` flag passed
to `get_by_label` (Playwright's default is `exact=False`); `screenshot`
carries the `full_page` flag (Playwright's default is `full_page=False`,
and the script never passes it). -/
inductive Op where
  | goto (url : String)
  | fill (label : String) (ex : Bool) (value : String)
  | expectAttr (label : String) (ex : Bool) (attr val : String)
  | click (label : String) (ex : Bool)
  | expectVisible (label : String) (ex : Bool)
  | makedirs (path : String) (exist_ok : Bool)
  | screenshot (path : String) (full_page : Bool)
deriving DecidableEq, Repr

/-- The fixed register-page URL of line 6. -/
def registerURL : String := "http://localhost:5173/register"

/-- The fixed output directory of lines 27 and 39. -/
def verificationDir : String := "/home/jules/verification"

/-- The success screenshot path of line 28. -/
def successPath : String := "/home/jules/verification/password_toggle.png"

/-- The failure screenshot path of line 40. -/
def failurePath : String := "/home/jules/verification/failure.png"

/-- The interactions of `verify_password_toggle` (lines 4-28), in source
order: navigate; fill the field labelled "Password" (`exact=True`);
assert its `type` attribute is `"password"`; click the control labelled
"Show password" (no `exact`, so Playwright's default `exact=False`);
assert the `type` attribute is now `"text"`; assert a control labelled
"Hide password" is visible (again default `exact=False`); create the
output directory with `exist_ok=True`; take the screenshot (no
`full_page` argument, so Playwright's default `full_page=False`). -/
def procOps : List Op :=
  [ Op.goto registerURL,
    Op.fill "Password" true "MySecretPass123",
    Op.expectAttr "Password" true "type" "password",
    Op.click "Show password" false,
    Op.expectAttr "Password" true "type" "text",
    Op.expectVisible "Hide password" false,
    Op.makedirs verificationDir true,
    Op.screenshot successPath false ]

/-- Run a list of interactions against the environment oracle: each
interaction is attempted in order; the first one on which the oracle
returns an exception ends the run, with that interaction as the last
attempted one, and no later interaction is attempted. Returns the trace
of attempted interactions and the raised exception, if any. -/
def runOps (env : Op → Option Err) : List Op → List Op × Option Err
  | [] => ([], none)
  | op :: rest =>
    match env op with
    | some e => ([op], some e)
    | none =>
      let r := runOps env rest
      (op :: r.1, r.2)

/-- The Verification Procedure `verify_password_toggle` (lines 4-28):
its Python body is the straight-line sequence `procOps`, it returns no
value (`None` in Python — the only results are the interaction trace and
the exception, if one was raised). -/
def verify_password_toggle (env : Op → Option Err) : List Op × Option Err :=
  runOps env procOps

/-- An observable event of the `__main__` driver: a browser/filesystem
interaction, a line printed to stdout, or `browser.close()`. -/
inductive Event where
  | op (o : Op)
  | print (s : String)
  | close
deriving DecidableEq, Repr

/-- The success line printed on line 36. -/
def successMsg : String := "Verification successful!"

/-- The failure line printed on line 38: `f"Verification failed: {e}"`. -/
def failureMsg (e : Err) : String := "Verification failed: " ++ e.msg

/-- The failure handler's `os.makedirs` call of line 39. -/
def handlerMakedirs : Op := Op.makedirs verificationDir true

/-- The failure handler's `page.screenshot` call of line 40 (no
`full_page` argument, so Playwright's default `full_page=False`). -/
def handlerScreenshot : Op := Op.screenshot failurePath false

/-- The `__main__` driver (lines 30-42): run the procedure inside
`try`; on success print the success line; on an exception `e` (caught by
`except Exception`) print the failure line, then re-create the output
directory and take the failure screenshot — each of which may itself
raise, in which case the new exception escapes the driver unhandled (the
`except` clause has no inner handler); the `finally` clause runs
`browser.close()` on every path before the run ends. Returns the event
trace and the exception escaping the driver unhandled, if any. -/
def driver (env : Op → Option Err) : List Event × Option Err :=
  match verify_password_toggle env with
  | (tr, none) =>
      (tr.map Event.op ++ [Event.print successMsg, Event.close], none)
  | (tr, some e) =>
      match env handlerMakedirs with
      | some e2 =>
          (tr.map Event.op ++ [Event.print (failureMsg e),
             Event.op handlerMakedirs, Event.close], some e2)
      | none =>
          (tr.map Event.op ++ [Event.print (failureMsg e),
             Event.op handlerMakedirs, Event.op handlerScreenshot, Event.close],
           env handlerScreenshot)

/-- Modelled from the spec: `os.makedirs(path, exist_ok=...)` (Python
standard library, not part of this repository) over a filesystem given
as the list of directories that exist. If the directory already exists
it raises `FileExistsError` unless `exist_ok` is true, in which case it
does nothing; otherwise it creates the directory. The spec requires
"Output directory creation must be idempotent (safe if the directory
already exists)". -/
def makedirsOS (dirs : List String) (path : String) (exist_ok : Bool) :
    Except String (List String) :=
  if path ∈ dirs then
    if exist_ok then Except.ok dirs else Except.error "FileExistsError"
  else Except.ok (path :: dirs)

/-- Character-code-list prefix test, auxiliary to substring containment. -/
def codesPrefixOf : List Nat → List Nat → Bool
  | [], _ => true
  | _ :: _, [] => false
  | a :: as, b :: bs => a == b && codesPrefixOf as bs

/-- Character-code-list substring containment, auxiliary to `labelMatches`. -/
def codesContain (needle : List Nat) : List Nat → Bool
  | [] => needle.isEmpty
  | b :: bs => codesPrefixOf needle (b :: bs) || codesContain needle bs

/-- ASCII case folding on a character code, auxiliary to `labelMatches`. -/
def codeLower (n : Nat) : Nat :=
  if 65 ≤ n ∧ n ≤ 90 then n + 32 else n

/-- The case-folded character codes of a string. -/
def foldedCodes (s : String) : List Nat :=
  s.toList.map (fun c => codeLower c.toNat)

/-- Modelled from the spec: Playwright's accessible-label matching for
`get_by_label` (third-party library, not part of this repository). With
`exact=True` the element's label must equal the query whole-string and
case-sensitively; with the default `exact=False` a case-insensitive
substring match suffices — the spec's glossary and §4.1 step 2 describe
exactly this exact/partial distinction ("requiring an exact textual
match (guards against partial-label collisions ...)"). -/
def labelMatches (ex : Bool) (query label : String) : Bool :=
  if ex then label == query
  else codesContain (foldedCodes query) (foldedCodes label)

/-- Environment in which every interaction succeeds. -/
def envOK : Op → Option Err := fun _ => none

/-- Environment in which the initial navigation raises (e.g. the target
application is not running) and every other interaction succeeds. -/
def envGotoFail : Op → Option Err := fun op =>
  if op = Op.goto registerURL then some ⟨"net::ERR_CONNECTION_REFUSED"⟩ else none

/-- Environment in which the navigation raises and, in addition, every
`os.makedirs` call raises (e.g. the output directory is not writable),
so the failure handler itself raises. -/
def envHandlerFail : Op → Option Err := fun op =>
  match op with
  | Op.goto _ => some ⟨"net::ERR_CONNECTION_REFUSED"⟩
  | Op.makedirs _ _ => some ⟨"PermissionError"⟩
  | _ => none

/-! ### Generic lemmas about the trace semantics -/

theorem verify_eq_runOps (env : Op → Option Err) :
    verify_password_toggle env = runOps env procOps := rfl

theorem runOps_all_ok (env : Op → Option Err) :
    ∀ ops : List Op, (∀ op ∈ ops, env op = none) → runOps env ops = (ops, none) := by
  intro ops
  induction ops with
  | nil => intro _; rfl
  | cons op rest ih =>
    intro h
    have hop : env op = none := h op (List.mem_cons_self op rest)
    have hrest := ih fun q hq => h q (List.mem_cons_of_mem op hq)
    simp [runOps, hop, hrest]

theorem runOps_ok_trace (env : Op → Option Err) :
    ∀ ops : List Op, (runOps env ops).2 = none →
      (runOps env ops).1 = ops ∧ ∀ op ∈ ops, env op = none := by
  intro ops
  induction ops with
  | nil => intro _; simp [runOps]
  | cons op rest ih =>
    intro h
    cases hop : env op with
    | some e => simp [runOps, hop] at h
    | none =>
      simp only [runOps, hop] at h ⊢
      obtain ⟨h1, h2⟩ := ih h
      refine ⟨by simp [h1], ?_⟩
      intro q hq
      rcases List.mem_cons.mp hq with hq | hq
      · exact hq ▸ hop
      · exact h2 q hq

theorem runOps_trace_initial (env : Op → Option Err) :
    ∀ ops : List Op, (runOps env ops).1 <+: ops := by
  intro ops
  induction ops with
  | nil => simp [runOps]
  | cons op rest ih =>
    cases hop : env op with
    | some e =>
      refine ⟨rest, ?_⟩
      simp [runOps, hop]
    | none =>
      obtain ⟨t, ht⟩ := ih
      refine ⟨t, ?_⟩
      simp [runOps, hop, ht]

theorem runOps_first_failure (env : Op → Option Err) (e : Err) :
    ∀ ops : List Op, (runOps env ops).2 = some e →
      ∃ pre op, (runOps env ops).1 = pre ++ [op] ∧ env op = some e ∧
        ∀ q ∈ pre, env q = none := by
  intro ops
  induction ops with
  | nil => intro h; simp [runOps] at h
  | cons op rest ih =>
    intro h
    cases hop : env op with
    | some e1 =>
      have he : e1 = e := by simpa [runOps, hop] using h
      subst he
      exact ⟨[], op, by simp [runOps, hop], hop, by simp⟩
    | none =>
      simp only [runOps, hop] at h ⊢
      obtain ⟨pre, op1, h1, h2, h3⟩ := ih h
      refine ⟨op :: pre, op1, by simp [h1], h2, ?_⟩
      intro q hq
      rcases List.mem_cons.mp hq with hq | hq
      · exact hq ▸ hop
      · exact h3 q hq

/-- Case analysis of the driver: a successful run prints the success line
and closes; a failed run prints the failure line, re-runs `makedirs`, and
either stops there (when `makedirs` itself raises, the new exception
escaping unhandled) or attempts the failure screenshot and closes, any
screenshot exception escaping unhandled. -/
theorem driver_cases (env : Op → Option Err) :
    (∃ tr, verify_password_toggle env = (tr, none) ∧
      driver env = (tr.map Event.op ++ [Event.print successMsg, Event.close], none)) ∨
    (∃ tr e, verify_password_toggle env = (tr, some e) ∧
      ((∃ e2, env handlerMakedirs = some e2 ∧
          driver env = (tr.map Event.op ++ [Event.print (failureMsg e),
            Event.op handlerMakedirs, Event.close], some e2)) ∨
       (env handlerMakedirs = none ∧
          driver env = (tr.map Event.op ++ [Event.print (failureMsg e),
            Event.op handlerMakedirs, Event.op handlerScreenshot, Event.close],
            env handlerScreenshot)))) := by
  rcases hv : verify_password_toggle env with ⟨tr, res⟩
  cases res with
  | none =>
    left
    exact ⟨tr, rfl, by simp [driver, hv]⟩
  | some e =>
    right
    refine ⟨tr, e, rfl, ?_⟩
    cases hm : env handlerMakedirs with
    | some e2 =>
      left
      exact ⟨e2, rfl, by simp [driver, hv, hm]⟩
    | none =>
      right
      exact ⟨rfl, by simp [driver, hv, hm]⟩

/-- Whether a driver event is a printed status line. -/
def isPrint : Event → Bool
  | Event.print _ => true
  | _ => false

/-- The number of status lines among the driver's events. -/
def countPrints (evs : List Event) : Nat := (evs.filter isPrint).length

theorem countPrints_map_op (tr : List Op) : countPrints (tr.map Event.op) = 0 := by
  simp [countPrints, List.filter_cons, isPrint]

theorem countPrints_append (l1 l2 : List Event) :
    countPrints (l1 ++ l2) = countPrints l1 + countPrints l2 := by
  simp [countPrints, List.filter_append]

theorem count_print_map_op (tr : List Op) (s : String) :
    (tr.map Event.op).count (Event.print s) = 0 := by
  induction tr with
  | nil => rfl
  | cons op rest ih =>
    simp [List.count_cons, ih]

/-- Every run of the driver prints exactly one status line. -/
theorem driver_one_status_line (env : Op → Option Err) :
    countPrints (driver env).1 = 1 := by
  rcases driver_cases env with ⟨tr, _, hd⟩ | ⟨tr, e, _, ⟨e2, _, hd⟩ | ⟨_, hd⟩⟩ <;>
    simp [hd, countPrints_append, countPrints_map_op, countPrints, isPrint,
      List.filter_cons]

/-! ### Claims -/

/-- Claim C1: given a page handle, the Verification Procedure performs
exactly this sequence of interactions, in this order — navigate to the
register URL, fill the field labelled "Password" (exact match) with
MySecretPass123, assert its type attribute is "password", click the
control labelled "Show password", assert the type attribute is "text",
assert a control labelled "Hide password" is visible, create the output
directory, capture the screenshot — with no other browser interaction,
raising nothing and returning no value (here: no result beyond the trace
and the absent exception). -/
theorem procedure_performs_exact_sequence (env : Op → Option Err)
    (h : ∀ op ∈ procOps, env op = none) :
    verify_password_toggle env = (procOps, none) :=
  runOps_all_ok env procOps h

/-- Witness for C1: in the environment where every interaction
succeeds, the procedure performs exactly `procOps` and raises nothing. -/
theorem procedure_performs_exact_sequence_witness :
    verify_password_toggle envOK = (procOps, none) :=
  procedure_performs_exact_sequence envOK fun _ _ => rfl

/-- Claim C2: on every exit path of the driver — success, a caught
procedure exception, or an exception raised by the failure handler
itself and escaping unhandled — `browser.close()` is the last event
before the run ends. -/
theorem browser_close_on_every_exit_path (env : Op → Option Err) :
    ∃ evs, (driver env).1 = evs ++ [Event.close] := by
  rcases driver_cases env with ⟨tr, _, hd⟩ | ⟨tr, e, _, ⟨e2, _, hd⟩ | ⟨_, hd⟩⟩
  · exact ⟨tr.map Event.op ++ [Event.print successMsg], by simp [hd]⟩
  · exact ⟨tr.map Event.op ++ [Event.print (failureMsg e), Event.op handlerMakedirs],
      by simp [hd]⟩
  · exact ⟨tr.map Event.op ++ [Event.print (failureMsg e), Event.op handlerMakedirs,
      Event.op handlerScreenshot], by simp [hd]⟩

/-- Counterexample to claim C3 (the driver always completes normally):
in the environment where navigation raises and `os.makedirs` raises
(e.g. the output directory is not writable), the procedure's exception
is caught, but the failure handler's own `makedirs` exception escapes
the driver unhandled. -/
theorem driver_completes_normally_cex :
    ¬ (driver envHandlerFail).2 = none ∧
    (verify_password_toggle envHandlerFail).2 =
      some ⟨"net::ERR_CONNECTION_REFUSED"⟩ ∧
    (driver envHandlerFail).2 = some ⟨"PermissionError"⟩ := by decide

/-- Claim C3 as amended: every error raised by the Verification
Procedure is caught by the driver and converted into a printed failure
message, and the driver completes normally provided the failure
handler's own steps (directory re-creation and failure screenshot) do
not themselves raise — if they do, their exception escapes unhandled. -/
theorem driver_catches_procedure_errors (env : Op → Option Err)
    (hm : env handlerMakedirs = none) (hs : env handlerScreenshot = none) :
    (driver env).2 = none ∧
    ∀ e : Err, (verify_password_toggle env).2 = some e →
      Event.print (failureMsg e) ∈ (driver env).1 := by
  rcases driver_cases env with ⟨tr, hv, hd⟩ | ⟨tr, e, hv, ⟨e2, hm2, hd⟩ | ⟨_, hd⟩⟩
  · refine ⟨by simp [hd], ?_⟩
    intro e he
    rw [hv] at he
    simp at he
  · simp [hm] at hm2
  · refine ⟨by simp [hd, hs], ?_⟩
    intro e1 he
    rw [hv] at he
    simp at he
    subst he
    simp [hd]

/-- Witness for the amended C3: with the target application down but the
filesystem healthy, the navigation error is caught, the failure line is
printed, and no exception escapes the driver. -/
theorem driver_catches_procedure_errors_witness :
    (driver envGotoFail).2 = none ∧
    ∀ e : Err, (verify_password_toggle envGotoFail).2 = some e →
      Event.print (failureMsg e) ∈ (driver envGotoFail).1 :=
  driver_catches_procedure_errors envGotoFail (by decide) (by decide)

/-- Counterexample to claim C4 (the success screenshot is full-page): on
a fully successful run the procedure never performs a screenshot with
`full_page = true`; the screenshot it performs at the fixed success path
has `full_page = false` (the script passes no `full_page` argument, and
Playwright's default is the viewport, not the entire scrollable page). -/
theorem success_screenshot_fullpage_cex :
    (verify_password_toggle envOK).2 = none ∧
    Op.screenshot successPath true ∉ (verify_password_toggle envOK).1 ∧
    Op.screenshot successPath false ∈ (verify_password_toggle envOK).1 := by decide

/-- Claim C4 as amended: on a successful run, the procedure's final two
interactions are creating the output directory (with `exist_ok=True`)
and then capturing a viewport screenshot (`full_page` not requested, so
Playwright's default false) to the fixed path
/home/jules/verification/password_toggle.png. -/
theorem success_screenshot_viewport_fixed_path (env : Op → Option Err)
    (h : (verify_password_toggle env).2 = none) :
    ∃ pre, (verify_password_toggle env).1 =
      pre ++ [Op.makedirs verificationDir true, Op.screenshot successPath false] := by
  have h1 : (verify_password_toggle env).1 = procOps :=
    (runOps_ok_trace env procOps h).1
  exact ⟨procOps.take 6, by rw [h1]; decide⟩

/-- Witness for the amended C4: in the all-success environment the trace
ends with the directory creation followed by the viewport screenshot at
the fixed success path. -/
theorem success_screenshot_viewport_fixed_path_witness :
    ∃ pre, (verify_password_toggle envOK).1 =
      pre ++ [Op.makedirs verificationDir true, Op.screenshot successPath false] :=
  success_screenshot_viewport_fixed_path envOK (by decide)

/-- Counterexample to claim C5 (on a procedure exception the driver
always captures a failure screenshot at the fixed failure path): in the
environment where navigation raises and `os.makedirs` raises, the
procedure raises, yet no screenshot at the failure path — with either
value of the `full_page` flag — occurs among the driver's events. -/
theorem failure_screenshot_guaranteed_cex :
    ((verify_password_toggle envHandlerFail).2).isSome = true ∧
    Event.op (Op.screenshot failurePath false) ∉ (driver envHandlerFail).1 ∧
    Event.op (Op.screenshot failurePath true) ∉ (driver envHandlerFail).1 := by decide

/-- Claim C5 as amended: when the Verification Procedure raises, the
driver catches the exception and prints the failure line containing the
original error message, and — provided the handler's directory
re-creation does not itself raise — attempts the failure screenshot at
the fixed failure path; on success the driver instead prints the success
line; in every run exactly one status line is printed. -/
theorem failure_report_best_effort_screenshot (env : Op → Option Err) (e : Err)
    (hfail : (verify_password_toggle env).2 = some e)
    (hm : env handlerMakedirs = none) :
    Event.print (failureMsg e) ∈ (driver env).1 ∧
    Event.op handlerScreenshot ∈ (driver env).1 ∧
    countPrints (driver env).1 = 1 ∧
    (∀ env2 : Op → Option Err, (verify_password_toggle env2).2 = none →
      Event.print successMsg ∈ (driver env2).1) ∧
    ∀ env2 : Op → Option Err, countPrints (driver env2).1 = 1 := by
  have hsucc : ∀ env2 : Op → Option Err, (verify_password_toggle env2).2 = none →
      Event.print successMsg ∈ (driver env2).1 := by
    intro env2 h2
    rcases driver_cases env2 with ⟨tr, hv, hd⟩ | ⟨tr, e1, hv, _⟩
    · simp [hd]
    · rw [hv] at h2
      simp at h2
  rcases driver_cases env with ⟨tr, hv, hd⟩ | ⟨tr, e1, hv, ⟨e2, hm2, hd⟩ | ⟨_, hd⟩⟩
  · rw [hv] at hfail
    simp at hfail
  · simp [hm] at hm2
  · rw [hv] at hfail
    simp at hfail
    subst hfail
    exact ⟨by simp [hd], by simp [hd], driver_one_status_line env, hsucc,
      fun env2 => driver_one_status_line env2⟩

/-- Witness for the amended C5: with the target application down, the
failure line for the navigation error is printed, the failure screenshot
is attempted at the fixed failure path, and exactly one status line is
printed. -/
theorem failure_report_best_effort_screenshot_witness :
    Event.print (failureMsg ⟨"net::ERR_CONNECTION_REFUSED"⟩) ∈ (driver envGotoFail).1 ∧
    Event.op handlerScreenshot ∈ (driver envGotoFail).1 ∧
    countPrints (driver envGotoFail).1 = 1 ∧
    (∀ env2 : Op → Option Err, (verify_password_toggle env2).2 = none →
      Event.print successMsg ∈ (driver env2).1) ∧
    ∀ env2 : Op → Option Err, countPrints (driver env2).1 = 1 :=
  failure_report_best_effort_screenshot envGotoFail
    ⟨"net::ERR_CONNECTION_REFUSED"⟩ (by decide) (by decide)

/-- Claim C6: the procedure fails at the first unmet expectation — its
trace is some successful prefix followed by the single failing
interaction, after which no later interaction of `procOps` runs — no
interaction is retried (the trace has no duplicates, being a prefix of
the duplicate-free `procOps`), and the exception is handled exactly once
at the driver level (the failure line for it is printed exactly once). -/
theorem fail_fast_no_retry (env : Op → Option Err) (e : Err)
    (h : (verify_password_toggle env).2 = some e) :
    (∃ pre op, (verify_password_toggle env).1 = pre ++ [op] ∧ env op = some e ∧
      ∀ q ∈ pre, env q = none) ∧
    (verify_password_toggle env).1 <+: procOps ∧
    ((verify_password_toggle env).1).Nodup ∧
    (driver env).1.count (Event.print (failureMsg e)) = 1 := by
  refine ⟨runOps_first_failure env e procOps h, runOps_trace_initial env procOps, ?_, ?_⟩
  · have hnodup : procOps.Nodup := by decide
    exact hnodup.sublist (runOps_trace_initial env procOps).sublist
  · rcases driver_cases env with ⟨tr, hv, hd⟩ | ⟨tr, e1, hv, ⟨e2, hm, hd⟩ | ⟨hm, hd⟩⟩
    · rw [hv] at h
      simp at h
    · rw [hv] at h
      simp at h
      subst h
      simp [hd, List.count_append, count_print_map_op, List.count_cons]
    · rw [hv] at h
      simp at h
      subst h
      simp [hd, List.count_append, count_print_map_op, List.count_cons]

/-- Witness for C6: with the target application down the procedure stops
at the failing navigation, nothing is retried, and the driver handles
the error exactly once. -/
theorem fail_fast_no_retry_witness :
    (∃ pre op, (verify_password_toggle envGotoFail).1 = pre ++ [op] ∧
      envGotoFail op = some ⟨"net::ERR_CONNECTION_REFUSED"⟩ ∧
      ∀ q ∈ pre, envGotoFail q = none) ∧
    (verify_password_toggle envGotoFail).1 <+: procOps ∧
    ((verify_password_toggle envGotoFail).1).Nodup ∧
    (driver envGotoFail).1.count
      (Event.print (failureMsg ⟨"net::ERR_CONNECTION_REFUSED"⟩)) = 1 :=
  fail_fast_no_retry envGotoFail ⟨"net::ERR_CONNECTION_REFUSED"⟩ (by decide)

/-- Claim C7: every `os.makedirs` call the script issues — the one in
the procedure and the one in the failure handler — targets
/home/jules/verification with `exist_ok=True`, and under the modelled
`os.makedirs` semantics such a call never raises: it succeeds from any
filesystem state and succeeds again immediately afterwards, so a second
run never fails because the directory already exists. -/
theorem makedirs_idempotent_both_paths (dirs : List String) (p : String) (b : Bool)
    (hcall : Op.makedirs p b ∈ procOps ∨ Op.makedirs p b = handlerMakedirs) :
    p = verificationDir ∧ b = true ∧
    ∃ dirs1, makedirsOS dirs verificationDir true = Except.ok dirs1 ∧
      makedirsOS dirs1 verificationDir true = Except.ok dirs1 := by
  have hp : p = verificationDir ∧ b = true := by
    rcases hcall with hmem | heq
    · simp [procOps] at hmem
      exact hmem
    · simp [handlerMakedirs] at heq
      exact heq
  refine ⟨hp.1, hp.2, ?_⟩
  by_cases hd : verificationDir ∈ dirs
  · exact ⟨dirs, by simp [makedirsOS, hd], by simp [makedirsOS, hd]⟩
  · exact ⟨verificationDir :: dirs, by simp [makedirsOS, hd], by simp [makedirsOS]⟩

/-- Witness for C7: the handler's `makedirs` call targets the fixed
directory with `exist_ok=True`, and from the empty filesystem creating
the directory and creating it again both succeed. -/
theorem makedirs_idempotent_both_paths_witness :
    verificationDir = verificationDir ∧ True = True ∧
    ∃ dirs1, makedirsOS [] verificationDir true = Except.ok dirs1 ∧
      makedirsOS dirs1 verificationDir true = Except.ok dirs1 := by
  have h := makedirs_idempotent_both_paths [] verificationDir true (Or.inr rfl)
  exact ⟨h.1, rfl, h.2.2⟩

/-- Claim C8: the password input is looked up with `exact=True` on the
query "Password" (the `fill` and both attribute assertions carry that
flag), and under exact matching only the label "Password" itself
matches — in particular the toggle labels "Show password" and
"Hide password", which merely contain "Password", never match. -/
theorem password_lookup_exact_match (l : String)
    (h : labelMatches true "Password" l = true) :
    l = "Password" ∧
    Op.fill "Password" true "MySecretPass123" ∈ procOps ∧
    Op.expectAttr "Password" true "type" "password" ∈ procOps ∧
    Op.expectAttr "Password" true "type" "text" ∈ procOps ∧
    labelMatches true "Password" "Show password" = false ∧
    labelMatches true "Password" "Hide password" = false := by
  refine ⟨?_, by decide, by decide, by decide, by decide, by decide⟩
  simpa [labelMatches] using h

/-- Witness for C8: the label "Password" itself does match the exact
lookup, and the conclusions hold at it. -/
theorem password_lookup_exact_match_witness :
    ("Password" : String) = "Password" ∧
    Op.fill "Password" true "MySecretPass123" ∈ procOps ∧
    Op.expectAttr "Password" true "type" "password" ∈ procOps ∧
    Op.expectAttr "Password" true "type" "text" ∈ procOps ∧
    labelMatches true "Password" "Show password" = false ∧
    labelMatches true "Password" "Hide password" = false :=
  password_lookup_exact_match "Password" (by decide)

/-- Claim C9: the toggle is looked up without the exact flag (the click
carries `exact=False`, Playwright's default), and non-exact matching is
a substring match: the label "Show password now", which strictly
contains "Show password" (it is not an exact match for it), is also
matched by the toggle lookup. -/
theorem toggle_lookup_substring_match :
    Op.click "Show password" false ∈ procOps ∧
    Op.expectVisible "Hide password" false ∈ procOps ∧
    labelMatches false "Show password" "Show password now" = true ∧
    labelMatches true "Show password" "Show password now" = false ∧
    labelMatches false "Show password" "Show password" = true := by decide

/-- Claim C10: whenever the procedure raises — at any step, in
particular before its own directory-creation step ever ran — and the
handler's `makedirs` does not raise, the driver's events end with the
directory re-creation, then the failure screenshot, then the close; and
under the modelled `os.makedirs` semantics the re-creation succeeds from
any filesystem state and leaves the output directory present, so the
failure screenshot can be written. -/
theorem handler_recreates_dir_before_failure_screenshot (env : Op → Option Err)
    (e : Err) (hfail : (verify_password_toggle env).2 = some e)
    (hm : env handlerMakedirs = none) :
    (∃ pre, (driver env).1 =
      pre ++ [Event.op handlerMakedirs, Event.op handlerScreenshot, Event.close]) ∧
    ∀ dirs : List String, ∃ dirs1,
      makedirsOS dirs verificationDir true = Except.ok dirs1 ∧
        verificationDir ∈ dirs1 := by
  constructor
  · rcases driver_cases env with ⟨tr, hv, hd⟩ | ⟨tr, e1, hv, ⟨e2, hm2, hd⟩ | ⟨_, hd⟩⟩
    · rw [hv] at hfail
      simp at hfail
    · simp [hm] at hm2
    · exact ⟨tr.map Event.op ++ [Event.print (failureMsg e1)], by simp [hd]⟩
  · intro dirs
    by_cases hd : verificationDir ∈ dirs
    · exact ⟨dirs, by simp [makedirsOS, hd], hd⟩
    · exact ⟨verificationDir :: dirs, by simp [makedirsOS, hd], by simp⟩

/-- Witness for C10: the procedure fails at the very first step
(navigation), before its own `makedirs` ever ran, and the driver still
re-creates the directory immediately before attempting the failure
screenshot. -/
theorem handler_recreates_dir_before_failure_screenshot_witness :
    (∃ pre, (driver envGotoFail).1 =
      pre ++ [Event.op handlerMakedirs, Event.op handlerScreenshot, Event.close]) ∧
    ∀ dirs : List String, ∃ dirs1,
      makedirsOS dirs verificationDir true = Except.ok dirs1 ∧
        verificationDir ∈ dirs1 :=
  handler_recreates_dir_before_failure_screenshot envGotoFail
    ⟨"net::ERR_CONNECTION_REFUSED"⟩ (by decide) (by decide)

end VerifyPasswordToggle
